import Mathlib

/-!
# Verification of the prism-vnc-proxy proxy session core

Shallow embedding of `src/wsgi_prism_websocket_proxy.py` (class
`WSGIPrismWebsocketProxy` and the module-level coroutines `client_await`
and `server_await`), together with the backend-URI construction of
`prism_websocket_handler`.

Modelling conventions:

* WebSocket byte payloads are `List Nat` (one `Nat` per byte).
* The authentication POST of `_get_session_cookie` is summarised by its
  observable outcome (`PostOutcome`): either the `requests` call raised a
  `RequestException` before a response was available, or it produced a
  response with an HTTP status code and a set of session cookies.
  `requests.Response.raise_for_status` raises `HTTPError` exactly for
  status codes in `400..599`; `HTTPError` is a subclass of
  `RequestException` and is caught by the first `except` clause.
* The two relay coroutines iterate over the messages their connection
  yields; a run of each loop is embedded as a function over the finite
  list of messages the connection yields before it stops yielding.  The
  end of that list corresponds to the `async for` terminating because the
  peer closed the connection.  Each message that is sent onward carries a
  flag saying whether the send succeeds; in the source only the binary
  send of `client_await` and both sends of `server_await` are wrapped in
  `try/except` (failure breaks that loop only), while a failing text send
  in `client_await` propagates its exception out of the coroutine.
* Effects are recorded as an event trace (`Ev`).  The trace of a session
  concatenates the client-loop events after the connection-phase events
  and the server-loop events after those; the two loops actually
  interleave, but every claim below only inspects membership or counts of
  events, which are insensitive to the interleaving.
* The event vocabulary also has `registryAdd`/`registryRemove`
  constructors so that statements about a live-session registry can be
  written down; the embedded handler never emits them because the source
  contains no session registry.
* `websockets.exceptions.InvalidStatus` is a subclass of
  `websockets.exceptions.InvalidHandshake`; `InvalidURI` is not.  The
  inner `except InvalidHandshake` around the first `websockets.connect`
  therefore catches exactly the handshake-rejection class
  (`invalidStatus` and `invalidHandshake` below).  `ConnErr.transport`
  stands for the remaining caught classes (`aiohttp.ClientError`, other
  `websockets.WebSocketException`, `ssl.SSLError`).
-/

namespace PrismVncProxy

/-- Byte strings are lists of byte values. -/
abbrev Bytes := List Nat

/-! ## Python `str.replace(old, new, 1)` -/

/-- Replace the leftmost occurrence of `old` in a character list by `new`,
exactly as Python's `str.replace(old, new, 1)` does for a nonempty `old`:
scan left to right and substitute at the first position where `old` is a
prefix of the remaining text. -/
def replaceFirstAux (old new : List Char) : List Char → List Char
  | [] => []
  | c :: cs =>
    if old.isPrefixOf (c :: cs) then new ++ (c :: cs).drop old.length
    else c :: replaceFirstAux old new cs

/-- Python `s.replace(old, new, 1)` on strings (for nonempty `old`). -/
def pyReplaceFirst (s old new : String) : String :=
  (replaceFirstAux old.toList new.toList s.toList).asString

/-- Lines 198–199 of the source: `str(request.rel_url).replace("/proxy",
"/vnc/vm", 1)` followed by appending `"/proxy"`. -/
def vncRelUrl (relUrl : String) : String :=
  pyReplaceFirst relUrl "/proxy" "/vnc/vm" ++ "/proxy"

/-- Line 200 of the source: `f"wss://{self._host}:9440{vnc_rel_url}"`. -/
def backendUri (host relUrl : String) : String :=
  "wss://" ++ host ++ ":9440" ++ vncRelUrl relUrl

/-! ## `_get_session_cookie` -/

/-- Observable outcome of the authentication POST issued by
`_get_session_cookie`: `requestError` when `session.post` itself raises a
`requests.RequestException` (network or timeout failure), otherwise the
response's HTTP status code and the session's cookies (name/value pairs). -/
inductive PostOutcome
  | requestError
  | ok (status : Nat) (cookies : List (String × String))
deriving DecidableEq, Repr

/-- `requests.Response.raise_for_status` raises `HTTPError` exactly for
4xx and 5xx status codes. -/
def raiseForStatusRaises (status : Nat) : Bool :=
  400 ≤ status && status < 600

/-- Embedding of `WSGIPrismWebsocketProxy._get_session_cookie`
(source lines 106–158): on a `RequestException` or an `HTTPError` from
`raise_for_status` it returns `None` (the 401 branch differs only in the
log message); with `"JSESSIONID"` absent from the session cookies it
returns `None`; otherwise it returns `"JSESSIONID=" + value`. -/
def getSessionCookie : PostOutcome → Option String
  | .requestError => none
  | .ok status cookies =>
    if raiseForStatusRaises status then none
    else
      match cookies.lookup "JSESSIONID" with
      | none => none
      | some v => some ("JSESSIONID=" ++ v)

/-! ## Messages and events -/

/-- A message yielded by the client connection's `async for` in
`client_await`, tagged as in `aiohttp.WSMsgType`.  `sendOk` records
whether forwarding that message to the backend would succeed. -/
inductive CMsg
  | text (s : String) (sendOk : Bool)
  | binary (b : Bytes) (sendOk : Bool)
  | ping (payload : Bytes)
  | pong (payload : Bytes)
  | close
  | error
deriving DecidableEq, Repr

/-- A message yielded by the backend connection's `async for` in
`server_await`: the `websockets` library yields `str` for text frames and
`bytes` for binary frames.  `sendOk` records whether forwarding it to the
client would succeed. -/
inductive SMsg
  | str (s : String) (sendOk : Bool)
  | bytes (b : Bytes) (sendOk : Bool)
deriving DecidableEq, Repr

/-- Observable events of a proxy session.  `registryAdd` and
`registryRemove` are in the vocabulary so that registry claims can be
stated; no code path of the source performs them. -/
inductive Ev
  | authAttempt
  | connectAttempt (uri : String)
  | sleepRetry (seconds : Nat)
  | prepareClient
  | closeClient
  | sendTextToServer (s : String)
  | sendBinaryToServer (b : Bytes)
  | pingServer
  | pongServer
  | sendTextToClient (s : String)
  | sendBinaryToClient (b : Bytes)
  | registryAdd
  | registryRemove
deriving DecidableEq, Repr

/-- How the client-side loop of `client_await` ended. -/
inductive ClientEnd
  | streamEnd        -- the `async for` ran out: the client connection closed
  | closedByProxy    -- the loop body called `client_ws.close()`
  | breakOnSendError -- the caught binary-send failure hit `break`
  | raised           -- an uncaught text-send failure escaped the coroutine
deriving DecidableEq, Repr

/-- How the server-side loop of `server_await` ended. -/
inductive ServerEnd
  | streamEnd        -- the `async for` ran out: the backend connection closed
  | breakOnSendError -- a caught send failure hit `break`
deriving DecidableEq, Repr

/-! ## The relay loops -/

/-- The `async for msg in client_ws` body of `client_await` (source lines
299–326), run over the list of messages the client connection yields:

* `TEXT` with payload `'close'`: `client_ws.close()`; the iteration then
  stops because the connection is closed.
* other `TEXT`: `server_ws.send(msg.data + '/answer')`, not wrapped in
  `try/except` — a send failure propagates out of the coroutine.
* `BINARY`: `server_ws.send(msg.data)` inside `try/except`; a failure
  logs and `break`s.
* `PING`/`PONG`: `server_ws.ping()` / `server_ws.pong()` with no payload
  argument — the client frame's payload is not passed on.
* `CLOSE`: `client_ws.close()`; the iteration stops.
* `ERROR`: logs and continues. -/
def clientLoop : List CMsg → List Ev × ClientEnd
  | [] => ([], .streamEnd)
  | .text s ok :: rest =>
    if s = "close" then ([Ev.closeClient], .closedByProxy)
    else if ok then
      let r := clientLoop rest
      (Ev.sendTextToServer (s ++ "/answer") :: r.1, r.2)
    else ([], .raised)
  | .binary b ok :: rest =>
    if ok then
      let r := clientLoop rest
      (Ev.sendBinaryToServer b :: r.1, r.2)
    else ([], .breakOnSendError)
  | .ping _ :: rest =>
    let r := clientLoop rest
    (Ev.pingServer :: r.1, r.2)
  | .pong _ :: rest =>
    let r := clientLoop rest
    (Ev.pongServer :: r.1, r.2)
  | .close :: _ => ([Ev.closeClient], .closedByProxy)
  | .error :: rest => clientLoop rest

/-- `client_await` (source lines 271–330): `await client_ws.prepare(request)`
followed by the message loop. -/
def client_await (msgs : List CMsg) : List Ev × ClientEnd :=
  let r := clientLoop msgs
  (Ev.prepareClient :: r.1, r.2)

/-- The `async for message in server_ws` body of `server_await` (source
lines 358–377): a `str` message is forwarded with `client_ws.send_str`,
anything else with `client_ws.send_bytes`, each inside `try/except` whose
failure logs and `break`s. -/
def serverLoop : List SMsg → List Ev × ServerEnd
  | [] => ([], .streamEnd)
  | .str s ok :: rest =>
    if ok then
      let r := serverLoop rest
      (Ev.sendTextToClient s :: r.1, r.2)
    else ([], .breakOnSendError)
  | .bytes b ok :: rest =>
    if ok then
      let r := serverLoop rest
      (Ev.sendBinaryToClient b :: r.1, r.2)
    else ([], .breakOnSendError)

/-- `server_await` (source lines 333–379): `await client_ws.prepare(request)`
(a second, idempotent prepare) followed by the message loop. -/
def server_await (msgs : List SMsg) : List Ev × ServerEnd :=
  let r := serverLoop msgs
  (Ev.prepareClient :: r.1, r.2)

/-! ## The session handler -/

/-- The concrete exception class raised by a failing `websockets.connect`,
restricted to the classes the handler's `except` clauses name.
`invalidStatus` is `websockets.exceptions.InvalidStatus`, a subclass of
`InvalidHandshake`; `invalidHandshake` is any other `InvalidHandshake`;
`transport` is `aiohttp.ClientError`, another `websockets.WebSocketException`
or `ssl.SSLError`.  An exception outside all of these (e.g. `OSError`)
would propagate to the aiohttp server, which ends the request; the spec's
connect-error taxonomy has no such case, and no claim below depends on
one. -/
inductive ConnErr
  | invalidURI
  | invalidStatus
  | invalidHandshake
  | transport
deriving DecidableEq, Repr

/-- Whether the exception is caught by `except
websockets.exceptions.InvalidHandshake` (class test): true exactly for
`InvalidHandshake` and its subclass `InvalidStatus`. -/
def ConnErr.isInvalidHandshakeClass : ConnErr → Bool
  | .invalidStatus => true
  | .invalidHandshake => true
  | .invalidURI => false
  | .transport => false

/-- Outcome of one `websockets.connect` call. -/
inductive ConnectResult
  | ok
  | err (e : ConnErr)
deriving DecidableEq, Repr

/-- State of a connection handle at the time the handler returns. -/
inductive ConnState
  | absent  -- never established (or, for the client, never prepared)
  | opened  -- established and not closed
  | closed
deriving DecidableEq, Repr

/-- The inputs a run of `prism_websocket_handler` consumes: the route
match (`request.match_info.get('vm_uuid', None)`), the inbound relative
URL, the outcome of the authentication POST, the outcomes of the at most
two `websockets.connect` calls, and the messages each connection yields
during the relay. -/
structure SessionEnv where
  vmUuid : Option String
  relUrl : String
  auth : PostOutcome
  attempt1 : ConnectResult
  attempt2 : ConnectResult
  clientMsgs : List CMsg
  serverMsgs : List SMsg
deriving DecidableEq, Repr

/-- What the handler returns (or raises). -/
inductive SessionResult
  | badRequest (text : String)          -- `web.Response(status=400, text=...)`
  | closedNoRelay                       -- prepared and closed `client_ws`, no relay
  | relayDone (cEnd : ClientEnd) (sEnd : ServerEnd)  -- returned `client_ws` after both tasks
  | raisedFromRelay                     -- `await client_task` re-raised a text-send failure
deriving DecidableEq, Repr

/-- A run of the handler: its result, its event trace, and the state of
the two connection handles when it returns. -/
structure SessionTrace where
  result : SessionResult
  events : List Ev
  clientConn : ConnState
  backendConn : ConnState
deriving DecidableEq, Repr

/-- Trace of the relay phase (source lines 261–268): the handler starts
`client_await` and `server_await` as tasks and awaits the client task,
then the server task.  The handler itself closes neither connection
afterwards; it only logs and returns `client_ws`.  The client connection
is closed at return exactly when the client loop ended by stream end
(peer close) or by the loop's own `client_ws.close()`; the backend
connection is closed exactly when the server loop consumed its stream to
the end (the backend closed it) — a `break` leaves it open.  When the
client loop raised, the handler re-raises before awaiting the server
task; the server loop keeps running detached, and the states shown are
those its own termination produces. -/
def relayPhase (uri : String) (prefixEvs : List Ev) (env : SessionEnv) : SessionTrace :=
  let c := client_await env.clientMsgs
  let s := server_await env.serverMsgs
  { result :=
      if c.2 = ClientEnd.raised then .raisedFromRelay else .relayDone c.2 s.2
    events := prefixEvs ++ [Ev.connectAttempt uri] ++ c.1 ++ s.1
    clientConn :=
      match c.2 with
      | .streamEnd => .closed
      | .closedByProxy => .closed
      | .breakOnSendError => .opened
      | .raised => .opened
    backendConn :=
      match s.2 with
      | .streamEnd => .closed
      | .breakOnSendError => .opened }

/-- Embedding of `WSGIPrismWebsocketProxy.prism_websocket_handler`
(source lines 160–268):

1. `request.match_info.get('vm_uuid', None)` is `None` → return a 400
   response `"VM UUID is required"`.
2. Build the backend URI, create `client_ws`, call
   `_get_session_cookie`; `None` → prepare and close `client_ws` and
   return it.
3. `websockets.connect(uri, ...)`; an `InvalidHandshake` (including its
   subclass `InvalidStatus`) on this first attempt → `asyncio.sleep(1)`
   and exactly one further `websockets.connect`.  Any exception escaping
   that inner `try` (a non-handshake first failure, or any failure of the
   retry) is caught by the outer clauses, which all prepare and close
   `client_ws` and return it.
4. On a connected backend, run the two relay tasks and return
   `client_ws`; no `server_ws.close()` appears anywhere in the source. -/
def prism_websocket_handler (host : String) (env : SessionEnv) : SessionTrace :=
  match env.vmUuid with
  | none =>
    { result := .badRequest "VM UUID is required"
      events := []
      clientConn := .absent
      backendConn := .absent }
  | some _ =>
    let uri := backendUri host env.relUrl
    match getSessionCookie env.auth with
    | none =>
      { result := .closedNoRelay
        events := [Ev.authAttempt, Ev.prepareClient, Ev.closeClient]
        clientConn := .closed
        backendConn := .absent }
    | some _ =>
      match env.attempt1 with
      | .ok => relayPhase uri [Ev.authAttempt] env
      | .err e =>
        if e.isInvalidHandshakeClass then
          match env.attempt2 with
          | .ok =>
            relayPhase uri
              [Ev.authAttempt, Ev.connectAttempt uri, Ev.sleepRetry 1] env
          | .err _ =>
            { result := .closedNoRelay
              events := [Ev.authAttempt, Ev.connectAttempt uri, Ev.sleepRetry 1,
                Ev.connectAttempt uri, Ev.prepareClient, Ev.closeClient]
              clientConn := .closed
              backendConn := .absent }
        else
          { result := .closedNoRelay
            events := [Ev.authAttempt, Ev.connectAttempt uri, Ev.prepareClient,
              Ev.closeClient]
            clientConn := .closed
            backendConn := .absent }

/-! ## Derived observations -/

/-- Is the event a `websockets.connect` call? -/
def Ev.isConnectAttempt : Ev → Bool
  | .connectAttempt _ => true
  | _ => false

/-- Is the event a data-frame send (text or binary, either direction)? -/
def Ev.isSend : Ev → Bool
  | .sendTextToServer _ => true
  | .sendBinaryToServer _ => true
  | .sendTextToClient _ => true
  | .sendBinaryToClient _ => true
  | _ => false

/-- Is the event the retry delay `asyncio.sleep(1)`? -/
def Ev.isSleepRetry : Ev → Bool
  | .sleepRetry _ => true
  | _ => false

/-- Is the event a live-session-registry operation? -/
def Ev.isRegistryOp : Ev → Bool
  | .registryAdd => true
  | .registryRemove => true
  | _ => false

/-- Number of `websockets.connect` calls a run performed. -/
def connectAttempts (t : SessionTrace) : Nat :=
  t.events.countP fun e => Ev.isConnectAttempt e

/-- Whether a run forwarded any data frame in either direction. -/
def dataRelayed (t : SessionTrace) : Bool :=
  t.events.any fun e => Ev.isSend e

/-- Whether a run performed the retry delay. -/
def retriedAfterDelay (t : SessionTrace) : Bool :=
  t.events.any fun e => Ev.isSleepRetry e

/-- Whether the first connection attempt failed with the class the inner
`except websockets.exceptions.InvalidHandshake` catches. -/
def firstAttemptHandshakeErr (env : SessionEnv) : Bool :=
  match env.attempt1 with
  | .ok => false
  | .err e => e.isInvalidHandshakeClass

/-- Whether the connection phase failed terminally: a non-handshake first
failure, or a handshake-class first failure whose retry also failed. -/
def connectFailedTerminally (env : SessionEnv) : Bool :=
  match env.attempt1 with
  | .ok => false
  | .err e =>
    if e.isInvalidHandshakeClass then
      match env.attempt2 with
      | .ok => false
      | .err _ => true
    else true

/-- Whether a handler result is a 400-class HTTP response. -/
def is400Class : SessionResult → Bool
  | .badRequest _ => true
  | _ => false

/-! ## Concrete session environments used in the theorems below -/

/-- A session whose first connection attempt is rejected with
`InvalidStatus` and whose retry fails with a transport-level error. -/
def envRetryTwice : SessionEnv :=
  { vmUuid := some "vm-1"
    relUrl := "/proxy/vm-1"
    auth := .ok 200 [("JSESSIONID", "x")]
    attempt1 := .err .invalidStatus
    attempt2 := .err .transport
    clientMsgs := []
    serverMsgs := [] }

/-- A session whose authentication POST comes back 401 with no cookie. -/
def envAuthFail : SessionEnv :=
  { vmUuid := some "vm-2"
    relUrl := "/proxy/vm-2"
    auth := .ok 401 []
    attempt1 := .ok
    attempt2 := .ok
    clientMsgs := []
    serverMsgs := [] }

/-- A successful session in which the client closes at once and the one
message from the backend fails to deliver to the client, so the
backend-to-client loop exits through its `break`. -/
def envBackendLeftOpen : SessionEnv :=
  { vmUuid := some "vm-3"
    relUrl := "/proxy/vm-3"
    auth := .ok 200 [("JSESSIONID", "x")]
    attempt1 := .ok
    attempt2 := .ok
    clientMsgs := []
    serverMsgs := [SMsg.bytes [222, 173, 190, 239] false] }

/-- A fully successful session: one binary frame relayed in each
direction, both streams then closing normally. -/
def envNormalSession : SessionEnv :=
  { vmUuid := some "123e4567-e89b-12d3-a456-426614174000"
    relUrl := "/proxy/123e4567-e89b-12d3-a456-426614174000"
    auth := .ok 200 [("JSESSIONID", "x")]
    attempt1 := .ok
    attempt2 := .ok
    clientMsgs := [CMsg.binary [222, 173, 190, 239] true]
    serverMsgs := [SMsg.bytes [1, 2, 3] true] }

/-- A session whose matched target id is not a UUID; its authentication
POST fails, ending the session right after the attempt. -/
def envMalformedUuid : SessionEnv :=
  { vmUuid := some "not-a-uuid"
    relUrl := "/proxy/not-a-uuid"
    auth := .requestError
    attempt1 := .ok
    attempt2 := .ok
    clientMsgs := []
    serverMsgs := [] }

/-- Split a character list at each `'-'` (helper for `specUuidFormat`). -/
def splitOnDash : List Char → List (List Char)
  | [] => [[]]
  | c :: cs =>
    if c = '-' then [] :: splitOnDash cs
    else
      match splitOnDash cs with
      | [] => [[c]]
      | g :: gs => (c :: g) :: gs

/-- Follows the spec's words only (used to exhibit a malformed target
identifier): a well-formed hex `8-4-4-4-12` UUID string. -/
def specUuidFormat (s : String) : Bool :=
  let isHex : Char → Bool := fun c =>
    c.isDigit || ('a' ≤ c && c ≤ 'f') || ('A' ≤ c && c ≤ 'F')
  match splitOnDash s.toList with
  | [a, b, c, d, e] =>
    a.length = 8 && b.length = 4 && c.length = 4 && d.length = 4 &&
      e.length = 12 && (a ++ b ++ c ++ d ++ e).all isHex
  | _ => false

/-! ## Helper lemmas -/

/-- Replacing at a leftmost occurrence that starts the list substitutes
there. -/
theorem replaceFirstAux_left (old new rest : List Char) (h : old ≠ []) :
    replaceFirstAux old new (old ++ rest) = new ++ rest := by
  cases old with
  | nil => exact absurd rfl h
  | cons c cs =>
    simp [replaceFirstAux, List.isPrefixOf_iff_prefix, List.cons_prefix_cons,
      List.prefix_append, List.drop_left]

/-- `String.toList` distributes over append. -/
theorem toList_append (s t : String) : (s ++ t).toList = s.toList ++ t.toList := by
  simp [String.toList]

/-- Events the two relay loops can emit (frame sends, control relays, the
client close, the prepare); connection-phase and registry events are not
among them. -/
def relayEv : Ev → Bool
  | .sendTextToServer _ => true
  | .sendBinaryToServer _ => true
  | .pingServer => true
  | .pongServer => true
  | .sendTextToClient _ => true
  | .sendBinaryToClient _ => true
  | .closeClient => true
  | .prepareClient => true
  | .authAttempt => false
  | .connectAttempt _ => false
  | .sleepRetry _ => false
  | .registryAdd => false
  | .registryRemove => false

/-- Every event the client loop emits is a relay event. -/
theorem clientLoop_all_relayEv (msgs : List CMsg) :
    (clientLoop msgs).1.all relayEv = true := by
  induction msgs with
  | nil => rfl
  | cons m rest ih =>
    cases m with
    | text s ok =>
      by_cases hs : s = "close" <;> cases ok <;>
        simp [clientLoop, hs, relayEv, ih]
    | binary b ok => cases ok <;> simp [clientLoop, relayEv, ih]
    | ping p => simp [clientLoop, relayEv, ih]
    | pong p => simp [clientLoop, relayEv, ih]
    | close => simp [clientLoop, relayEv]
    | error => simp [clientLoop, ih]

/-- Every event the server loop emits is a relay event. -/
theorem serverLoop_all_relayEv (msgs : List SMsg) :
    (serverLoop msgs).1.all relayEv = true := by
  induction msgs with
  | nil => rfl
  | cons m rest ih =>
    cases m with
    | str s ok => cases ok <;> simp [serverLoop, relayEv, ih]
    | bytes b ok => cases ok <;> simp [serverLoop, relayEv, ih]

/-- Relay events are never connection attempts. -/
theorem relayEv_no_connect {l : List Ev} (h : l.all relayEv = true) :
    ∀ a ∈ l, Ev.isConnectAttempt a = false := by
  intro a ha
  have hr := List.all_eq_true.mp h a ha
  cases a <;> simp_all [relayEv, Ev.isConnectAttempt]

/-- Relay events are never the retry delay. -/
theorem relayEv_no_sleep {l : List Ev} (h : l.all relayEv = true) :
    ∀ a ∈ l, Ev.isSleepRetry a = false := by
  intro a ha
  have hr := List.all_eq_true.mp h a ha
  cases a <;> simp_all [relayEv, Ev.isSleepRetry]

/-- Relay events are never registry operations. -/
theorem relayEv_no_registry {l : List Ev} (h : l.all relayEv = true) :
    ∀ a ∈ l, Ev.isRegistryOp a = false := by
  intro a ha
  have hr := List.all_eq_true.mp h a ha
  cases a <;> simp_all [relayEv, Ev.isRegistryOp]

/-! ## Claim theorems -/

/-- Claim C1 (code evaluation at the failing input): a client text frame
with payload exactly `"close"` closes the client connection and forwards
nothing; but a client text frame with any other payload, here `"hello"`,
is forwarded to the backend as `"hello/answer"` — the loop appends the
literal `/answer` (source line 306), so the payload is not forwarded
byte-for-byte verbatim as the claim states. -/
theorem text_close_and_answer_suffix_eval :
    clientLoop [CMsg.text "close" true] = ([Ev.closeClient], ClientEnd.closedByProxy) ∧
    clientLoop [CMsg.text "hello" true]
        = ([Ev.sendTextToServer "hello/answer"], ClientEnd.streamEnd) ∧
    "hello/answer" ≠ "hello" := by decide

/-- Claim C2: with a target id present and a session cookie obtained, the
backend connection is attempted once, and exactly one retry — preceded by
the fixed `asyncio.sleep(1)` delay — happens if and only if the first
attempt fails with the `InvalidHandshake` class; when the connection phase
fails terminally (non-handshake first failure, or any failure of the
retry) there is no third attempt, the handler closes the client connection
and returns it, no backend connection exists, and no data frame is
relayed. -/
theorem connect_retry_policy (host u cv : String) (env : SessionEnv)
    (hu : env.vmUuid = some u) (hc : getSessionCookie env.auth = some cv) :
    connectAttempts (prism_websocket_handler host env)
        = (if firstAttemptHandshakeErr env then 2 else 1) ∧
    retriedAfterDelay (prism_websocket_handler host env)
        = firstAttemptHandshakeErr env ∧
    (connectFailedTerminally env = true →
      (prism_websocket_handler host env).result = SessionResult.closedNoRelay ∧
      (prism_websocket_handler host env).clientConn = ConnState.closed ∧
      (prism_websocket_handler host env).backendConn = ConnState.absent ∧
      dataRelayed (prism_websocket_handler host env) = false) := by
  rcases h1 : env.attempt1 with _ | e
  · have hall1 := clientLoop_all_relayEv env.clientMsgs
    have hall2 := serverLoop_all_relayEv env.serverMsgs
    refine ⟨?_, ?_, ?_⟩
    · simp [prism_websocket_handler, hu, hc, h1, relayPhase, client_await, server_await,
        connectAttempts, firstAttemptHandshakeErr, List.countP_append, List.countP_cons,
        Ev.isConnectAttempt]
      exact ⟨relayEv_no_connect hall1, relayEv_no_connect hall2⟩
    · simp [prism_websocket_handler, hu, hc, h1, relayPhase, client_await, server_await,
        retriedAfterDelay, firstAttemptHandshakeErr, List.any_append,
        Ev.isSleepRetry]
      exact ⟨relayEv_no_sleep hall1, relayEv_no_sleep hall2⟩
    · simp [connectFailedTerminally, h1]
  · rcases he : e.isInvalidHandshakeClass with hf | ht
    · refine ⟨?_, ?_, ?_⟩ <;>
        simp [prism_websocket_handler, hu, hc, h1, he, connectAttempts,
          retriedAfterDelay, firstAttemptHandshakeErr, connectFailedTerminally,
          dataRelayed, List.countP_cons, Ev.isConnectAttempt, Ev.isSleepRetry, Ev.isSend]
    · rcases h2 : env.attempt2 with _ | e2
      · have hall1 := clientLoop_all_relayEv env.clientMsgs
        have hall2 := serverLoop_all_relayEv env.serverMsgs
        refine ⟨?_, ?_, ?_⟩
        · simp [prism_websocket_handler, hu, hc, h1, he, h2, relayPhase, client_await,
            server_await, connectAttempts, firstAttemptHandshakeErr, List.countP_append,
            List.countP_cons, Ev.isConnectAttempt]
          exact ⟨relayEv_no_connect hall1, relayEv_no_connect hall2⟩
        · simp [prism_websocket_handler, hu, hc, h1, he, h2, relayPhase, client_await,
            server_await, retriedAfterDelay, firstAttemptHandshakeErr, List.any_append,
            List.any_cons, Ev.isSleepRetry]
        · simp [connectFailedTerminally, h1, he, h2]
      · refine ⟨?_, ?_, ?_⟩ <;>
          simp [prism_websocket_handler, hu, hc, h1, he, h2, connectAttempts,
            retriedAfterDelay, firstAttemptHandshakeErr, connectFailedTerminally,
            dataRelayed, List.countP_cons, Ev.isConnectAttempt, Ev.isSleepRetry, Ev.isSend]

/-- Witness for C2 at a concrete input: first attempt fails with
`InvalidStatus` (handshake class), the retry fails with a transport
error — two attempts, one retry after the delay, terminal close. -/
theorem connect_retry_policy_witness :
    connectAttempts (prism_websocket_handler "prism.example" envRetryTwice) = 2 ∧
    retriedAfterDelay (prism_websocket_handler "prism.example" envRetryTwice) = true ∧
    (connectFailedTerminally envRetryTwice = true →
      (prism_websocket_handler "prism.example" envRetryTwice).result
          = SessionResult.closedNoRelay ∧
      (prism_websocket_handler "prism.example" envRetryTwice).clientConn
          = ConnState.closed ∧
      (prism_websocket_handler "prism.example" envRetryTwice).backendConn
          = ConnState.absent ∧
      dataRelayed (prism_websocket_handler "prism.example" envRetryTwice) = false) :=
  connect_retry_policy "prism.example" "vm-1" "JSESSIONID=x" envRetryTwice rfl rfl

/-- Claim C3 (code evaluation at the failing input): a session that
authenticates and connects, whose client closes at once and whose backend
sends one message that fails to deliver to the client, terminates the
relay normally (the handler returns), yet the backend connection is still
open at return — the source never calls a close on the backend
connection. -/
theorem backend_conn_left_open_eval :
    (prism_websocket_handler "prism.example" envBackendLeftOpen).result
        = SessionResult.relayDone ClientEnd.streamEnd ServerEnd.breakOnSendError ∧
    (prism_websocket_handler "prism.example" envBackendLeftOpen).clientConn
        = ConnState.closed ∧
    (prism_websocket_handler "prism.example" envBackendLeftOpen).backendConn
        = ConnState.opened := by decide

/-- Claim C4 as amended: the handler maintains no live-session registry at
all — no run of a session, on any path, performs a registry add or a
registry remove. -/
theorem no_registry_ops (host : String) (env : SessionEnv) :
    (prism_websocket_handler host env).events.countP (fun e => Ev.isRegistryOp e) = 0 := by
  rcases hv : env.vmUuid with _ | u
  · simp [prism_websocket_handler, hv]
  · rcases hco : getSessionCookie env.auth with _ | cv
    · simp [prism_websocket_handler, hv, hco, Ev.isRegistryOp]
    · have hall1 := clientLoop_all_relayEv env.clientMsgs
      have hall2 := serverLoop_all_relayEv env.serverMsgs
      rcases h1 : env.attempt1 with _ | e
      · simp [prism_websocket_handler, hv, hco, h1, relayPhase, client_await,
          server_await, List.countP_append, List.countP_cons, Ev.isRegistryOp]
        exact ⟨relayEv_no_registry hall1, relayEv_no_registry hall2⟩
      · rcases he : e.isInvalidHandshakeClass with hf | ht
        · simp [prism_websocket_handler, hv, hco, h1, he, Ev.isRegistryOp]
        · rcases h2 : env.attempt2 with _ | e2
          · simp [prism_websocket_handler, hv, hco, h1, he, h2, relayPhase,
              client_await, server_await, List.countP_append, List.countP_cons,
              Ev.isRegistryOp]
            exact ⟨relayEv_no_registry hall1, relayEv_no_registry hall2⟩
          · simp [prism_websocket_handler, hv, hco, h1, he, h2, Ev.isRegistryOp]

/-- Counterexample to C4 as stated: a fully successful session — relay
runs to normal completion — never adds any entry to a session registry at
session start. -/
theorem no_registry_entry_eval :
    Ev.registryAdd ∉ (prism_websocket_handler "prism.example" envNormalSession).events ∧
    (prism_websocket_handler "prism.example" envNormalSession).result
        = SessionResult.relayDone ClientEnd.streamEnd ServerEnd.streamEnd := by decide

/-- Claim C5 as amended: the handler attempts authentication exactly when
a target id matched the route (whatever its shape); only a missing target
id short-circuits to the 400 response, and no format validation is
performed. -/
theorem target_id_check_is_missing_only (host : String) (env : SessionEnv) :
    (Ev.authAttempt ∈ (prism_websocket_handler host env).events ↔ env.vmUuid ≠ none) ∧
    (env.vmUuid = none →
      (prism_websocket_handler host env).result
        = SessionResult.badRequest "VM UUID is required") := by
  rcases hv : env.vmUuid with _ | u
  · simp [prism_websocket_handler, hv]
  · refine ⟨?_, by simp [hv]⟩
    simp only [hv, ne_eq, reduceCtorEq, not_false_iff, iff_true]
    rcases hco : getSessionCookie env.auth with _ | cv
    · simp [prism_websocket_handler, hv, hco]
    · rcases h1 : env.attempt1 with _ | e
      · simp [prism_websocket_handler, hv, hco, h1, relayPhase]
      · rcases he : e.isInvalidHandshakeClass with hf | ht
        · simp [prism_websocket_handler, hv, hco, h1, he]
        · rcases h2 : env.attempt2 with _ | e2
          · simp [prism_websocket_handler, hv, hco, h1, he, h2, relayPhase]
          · simp [prism_websocket_handler, hv, hco, h1, he, h2]

/-- Counterexample to C5 as stated: `"not-a-uuid"` is not a well-formed
UUID, yet the session attempts authentication and does not return a
400-class result. -/
theorem malformed_uuid_not_rejected_eval :
    specUuidFormat "not-a-uuid" = false ∧
    Ev.authAttempt ∈ (prism_websocket_handler "prism.example" envMalformedUuid).events ∧
    is400Class (prism_websocket_handler "prism.example" envMalformedUuid).result
        = false := by decide

/-- Claim C6: when `_get_session_cookie` yields no credential, the session
performs the authentication attempt, prepares and closes the client
connection, and nothing else: no backend connection attempt is made and
no data frame is relayed in either direction. -/
theorem auth_failure_closes_without_connect (host u : String) (env : SessionEnv)
    (hu : env.vmUuid = some u) (ha : getSessionCookie env.auth = none) :
    (prism_websocket_handler host env).events
        = [Ev.authAttempt, Ev.prepareClient, Ev.closeClient] ∧
    connectAttempts (prism_websocket_handler host env) = 0 ∧
    dataRelayed (prism_websocket_handler host env) = false ∧
    (prism_websocket_handler host env).clientConn = ConnState.closed ∧
    (prism_websocket_handler host env).backendConn = ConnState.absent := by
  refine ⟨?_, ?_, ?_, ?_, ?_⟩ <;>
    simp [prism_websocket_handler, hu, ha, connectAttempts, dataRelayed,
      Ev.isConnectAttempt, Ev.isSend]

/-- Witness for C6 at a concrete input: a 401 response carries no session
cookie, so the session closes without a connection attempt. -/
theorem auth_failure_witness :
    (prism_websocket_handler "prism.example" envAuthFail).events
        = [Ev.authAttempt, Ev.prepareClient, Ev.closeClient] ∧
    connectAttempts (prism_websocket_handler "prism.example" envAuthFail) = 0 ∧
    dataRelayed (prism_websocket_handler "prism.example" envAuthFail) = false ∧
    (prism_websocket_handler "prism.example" envAuthFail).clientConn = ConnState.closed ∧
    (prism_websocket_handler "prism.example" envAuthFail).backendConn = ConnState.absent :=
  auth_failure_closes_without_connect "prism.example" "vm-2" envAuthFail rfl rfl

/-- Claim C7: `_get_session_cookie` returns a credential exactly when the
POST produced a response whose status `raise_for_status` accepts and whose
session cookies contain `JSESSIONID`, and then the credential is the
string `JSESSIONID=` followed by that value; a request failure, an error
status, or a missing cookie all yield `None`. -/
theorem get_session_cookie_characterisation (r : PostOutcome) (cr : String) :
    getSessionCookie r = some cr ↔
      ∃ status cookies v, r = PostOutcome.ok status cookies ∧
        raiseForStatusRaises status = false ∧
        cookies.lookup "JSESSIONID" = some v ∧
        cr = "JSESSIONID=" ++ v := by
  cases r with
  | requestError => simp [getSessionCookie]
  | ok status cookies =>
    rcases hr : raiseForStatusRaises status with hf | ht
    · rcases hl : cookies.lookup "JSESSIONID" with _ | v
      · simp [getSessionCookie, hr, hl]
      · simp only [getSessionCookie, hr, Bool.false_eq_true, if_false, hl,
          Option.some.injEq, PostOutcome.ok.injEq]
        constructor
        · rintro rfl
          exact ⟨status, cookies, v, ⟨rfl, rfl⟩, hr, hl, rfl⟩
        · rintro ⟨s', c', v', ⟨rfl, rfl⟩, _, hl', rfl⟩
          rw [hl'] at hl
          cases hl
          rfl
    · simp [getSessionCookie, hr]

/-- Claim C8: a binary frame whose send succeeds is forwarded with a
byte-for-byte identical payload, in both directions: the client loop sends
exactly the received bytes to the backend, and the server loop sends
exactly the received bytes to the client. -/
theorem binary_frames_verbatim (b : Bytes) (crest : List CMsg) (srest : List SMsg) :
    (clientLoop (CMsg.binary b true :: crest)).1
        = Ev.sendBinaryToServer b :: (clientLoop crest).1 ∧
    (serverLoop (SMsg.bytes b true :: srest)).1
        = Ev.sendBinaryToClient b :: (serverLoop srest).1 := by
  constructor <;> simp [clientLoop, serverLoop]

/-- Claim C9: for an inbound request on path `/proxy/{targetId}` the
backend URI the handler constructs is exactly
`wss://<host>:9440/vnc/vm/<targetId>/proxy`. -/
theorem backend_uri_from_proxy_path (host tid : String) :
    backendUri host ("/proxy/" ++ tid)
      = "wss://" ++ host ++ ":9440/vnc/vm/" ++ tid ++ "/proxy" := by
  have h0 : ("/proxy/" ++ tid).toList = "/proxy".toList ++ ('/' :: tid.toList) := by
    rw [toList_append]; rfl
  have h1 : pyReplaceFirst ("/proxy/" ++ tid) "/proxy" "/vnc/vm"
      = "/vnc/vm" ++ ("/" ++ tid) := by
    unfold pyReplaceFirst
    rw [h0, replaceFirstAux_left _ _ _ (by decide)]
    rfl
  unfold backendUri vncRelUrl
  rw [h1]
  simp only [String.append_assoc]
  congr 1

/-- A concrete instance of the URI construction. -/
theorem backend_uri_example :
    backendUri "10.0.0.1" "/proxy/123e4567-e89b-12d3-a456-426614174000"
      = "wss://10.0.0.1:9440/vnc/vm/123e4567-e89b-12d3-a456-426614174000/proxy" := by
  decide

/-- Claim C10: a client ping or pong frame makes the loop issue a ping,
respectively a pong, to the backend with no payload argument (the call
carries no data), and the result of the loop is independent of the
payload of the received ping or pong frame — the payload is discarded and
never relayed. -/
theorem ping_pong_payload_discarded (p q : Bytes) (rest : List CMsg) :
    clientLoop (CMsg.ping p :: rest)
        = (Ev.pingServer :: (clientLoop rest).1, (clientLoop rest).2) ∧
    clientLoop (CMsg.pong q :: rest)
        = (Ev.pongServer :: (clientLoop rest).1, (clientLoop rest).2) ∧
    clientLoop (CMsg.ping p :: rest) = clientLoop (CMsg.ping [] :: rest) ∧
    clientLoop (CMsg.pong q :: rest) = clientLoop (CMsg.pong [] :: rest) := by
  refine ⟨?_, ?_, ?_, ?_⟩ <;> simp [clientLoop]

end PrismVncProxy
